import Mathlib

/-!
# Verification of the booking repository

Shallow embedding of the concurrency-control core of the booking system:
the mock authoritative API (`MockBookingAPI` in `src/services/BookingAPI.ts`),
the cross-tab lock coordinator (`GlobalEventBus` in
`src/services/GlobalEventBus.ts`) and the client store
(`BookingStore` in `src/stores/BookingStore.ts`).

Modelling conventions:
* ISO-8601 timestamp strings become `Nat` instants in milliseconds; JS
  `now - lockTime` comparisons against a bound behave identically under
  truncated `Nat` subtraction (a negative difference and a truncated-to-zero
  difference fall on the same side of every `≤ / >` test used by the code).
* JS `Map` / plain-object tables become association lists
  `List (String × α)` with JS `Map` semantics: lookup finds the first match,
  `set` replaces in place, insertion order is preserved.
* `Math.random() < 0.1` in `bookSlot` (the injected third-party preemption)
  is an explicit oracle argument `preempt : Option String`: `none` means the
  branch is not taken, `some u` means it fires with random winner `u`.
* User-facing message strings are irrelevant to control flow; the store's
  `error` field is modelled by the inductive `StoreError` recording which
  message was produced and with which data.
-/

namespace Booking

/-! ## Association-list operations (JS `Map` semantics) -/

/-- First-match lookup, `Map.prototype.get`. -/
def alookup {α : Type} : List (String × α) → String → Option α
  | [], _ => none
  | (k, v) :: rest, key => if k = key then some v else alookup rest key

/-- Model of `Map.prototype.set`: replace the first binding in place, else append. -/
def aset {α : Type} : List (String × α) → String → α → List (String × α)
  | [], key, v => [(key, v)]
  | (k, w) :: rest, key, v =>
      if k = key then (k, v) :: rest else (k, w) :: aset rest key v

/-- Model of `Map.prototype.delete`: remove every binding for the key. -/
def aremove {α : Type} : List (String × α) → String → List (String × α)
  | [], _ => []
  | (k, v) :: rest, key =>
      if k = key then aremove rest key else (k, v) :: aremove rest key

/-! ## Data model (`src/types/index.ts`) -/

/-- Enum `SlotStatus` from `src/types/index.ts`. -/
inductive SlotStatus
  | available
  | locked
  | booked
  | expired
deriving DecidableEq, Repr

/-- Enum `LockReason` from `src/types/index.ts`. -/
inductive LockReason
  | booking_pending
  | maintenance
deriving DecidableEq, Repr

/-- Record `TimeSlot` from `src/types/index.ts`; timestamps are `Nat` instants. -/
structure TimeSlot where
  id : String
  startTime : Nat
  endTime : Nat
  status : SlotStatus
  lockedBy : Option String := none
  lockedAt : Option Nat := none
  lockedReason : Option LockReason := none
  bookedBy : Option String := none
  bookedAt : Option Nat := none
  price : Option Nat := none
  resourceId : Option String := none
deriving DecidableEq, Repr

/-- Record `BookingRequest` from `src/types/index.ts`. -/
structure BookingRequest where
  slotId : String
  userId : String
  timestamp : Nat
  clientId : String
deriving DecidableEq, Repr

/-- Enum `ApiErrorCode` from `src/types/index.ts`. -/
inductive ApiErrorCode
  | SLOT_NOT_FOUND
  | SLOT_ALREADY_BOOKED
  | SLOT_LOCKED_BY_OTHER
  | INVALID_STATE_TRANSITION
  | CONFLICT_DETECTED
  | TIMESTAMP_EXPIRED
  | RATE_LIMITED
deriving DecidableEq, Repr

/-- The `error` payload of `BookingResponse`. -/
structure ApiError where
  code : ApiErrorCode
  message : String
deriving DecidableEq, Repr

/-- The `conflict` payload of `BookingResponse`. The source reads
`slot.bookedBy!` / `slot.bookedAt!`, a type-level assertion that passes the
(possibly absent) value through unchanged at runtime, so the fields stay
optional here. -/
structure ConflictInfo where
  slotId : String
  bookedBy : Option String
  bookedAt : Option Nat
deriving DecidableEq, Repr

/-- Record `BookingResponse` from `src/types/index.ts`. -/
structure BookingResponse where
  success : Bool
  slot : Option TimeSlot := none
  error : Option ApiError := none
  conflict : Option ConflictInfo := none
deriving DecidableEq, Repr

/-- JS string truthiness as the source uses it in guards:
`undefined` and the empty string are falsy. -/
def isFalsy : Option String → Bool
  | none => true
  | some s => s = ""

/-! ## `MockBookingAPI` (`src/services/BookingAPI.ts`) -/

/-- Entry of the API's `bookingLocks` map. -/
structure ApiLockRec where
  userId : String
  lockedAt : Nat
deriving DecidableEq, Repr

/-- Entry of the API's `bookingConfirmations` map. -/
structure Confirmation where
  userId : String
  confirmedAt : Nat
deriving DecidableEq, Repr

/-- The mutable fields of `MockBookingAPI`. -/
structure ApiState where
  slots : List (String × TimeSlot)
  bookingLocks : List (String × ApiLockRec)
  bookingConfirmations : List (String × Confirmation)
deriving DecidableEq, Repr

/-- Model of `initializeMockData`: 24 half-hour slots starting at `base`
(9:00 of the current day in the source), all `Available`. -/
def initializeMockData (base : Nat) : ApiState :=
  { slots := (List.range 24).map fun i =>
      ("slot-" ++ toString (i + 1),
       { id := "slot-" ++ toString (i + 1)
         startTime := base + i * 1800000
         endTime := base + i * 1800000 + 1800000
         status := .available
         price := some (50 + i * 5)
         resourceId := some "room-001" })
    bookingLocks := []
    bookingConfirmations := [] }

/-- Model of `MockBookingAPI.bookSlot`. Here `now` is the instant `new Date()` is read at;
`preempt` is the oracle for `Math.random() < 0.1`: `some u` means the injected
third-party preemption fires with random winner `u`, `none` that it does not. -/
def bookSlot (st : ApiState) (request : BookingRequest) (now : Nat)
    (preempt : Option String) : BookingResponse × ApiState :=
  match alookup st.slots request.slotId with
  | none =>
      ({ success := false,
         error := some ⟨.SLOT_NOT_FOUND, "时间段不存在"⟩ }, st)
  | some slot =>
      if slot.status = .booked then
        ({ success := false,
           error := some ⟨.SLOT_ALREADY_BOOKED, "该时间段已被预定"⟩,
           conflict := some ⟨slot.id, slot.bookedBy, slot.bookedAt⟩ }, st)
      else if slot.status = .locked ∧ slot.lockedBy ≠ some request.userId then
        ({ success := false,
           error := some ⟨.SLOT_LOCKED_BY_OTHER, "该时间段正在被其他用户预定"⟩ }, st)
      else
        match preempt with
        | some otherUserId =>
            let confirmedSlot := { slot with
              status := .booked, bookedBy := some otherUserId,
              bookedAt := some now, lockedBy := none, lockedAt := none }
            ({ success := false,
               error := some ⟨.CONFLICT_DETECTED, "并发冲突：该时间段已被其他用户预定"⟩,
               conflict := some ⟨slot.id, some otherUserId, some now⟩ },
             { st with slots := aset st.slots request.slotId confirmedSlot })
        | none =>
            let bookedSlot := { slot with
              status := .booked, bookedBy := some request.userId,
              bookedAt := some now, lockedBy := none, lockedAt := none }
            ({ success := true, slot := some bookedSlot },
             { st with
               slots := aset st.slots request.slotId bookedSlot,
               bookingConfirmations := aset st.bookingConfirmations
                 request.slotId ⟨request.userId, now⟩ })

/-- Model of `MockBookingAPI.cancelBooking`. The result pair is
`(success, error message)`. -/
def cancelBooking (st : ApiState) (slotId userId : String) :
    (Bool × Option String) × ApiState :=
  match alookup st.slots slotId with
  | none => ((false, some "时间段不存在"), st)
  | some slot =>
      if slot.bookedBy ≠ some userId then
        ((false, some "只能取消自己的预定"), st)
      else if slot.status ≠ .booked then
        ((false, some "该时间段未处于预定状态"), st)
      else
        let cancelledSlot := { slot with
          status := .available, bookedBy := none, bookedAt := none }
        ((true, none),
         { st with
           slots := aset st.slots slotId cancelledSlot,
           bookingConfirmations := aremove st.bookingConfirmations slotId })

/-- Model of `MockBookingAPI.lockSlot` (state effect at call time; the 30-second
`setTimeout` auto-unlock it arms is a later `unlockSlot` call, covered by
operation sequences). -/
def lockSlot (st : ApiState) (slotId userId : String) (now : Nat) :
    (Bool × Option String) × ApiState :=
  match alookup st.slots slotId with
  | none => ((false, some "时间段不存在"), st)
  | some slot =>
      if slot.status ≠ .available then
        ((false, some "时间段不可锁定"), st)
      else
        let commit : ApiState :=
          { st with
            bookingLocks := aset st.bookingLocks slotId ⟨userId, now⟩,
            slots := aset st.slots slotId { slot with
              status := .locked, lockedBy := some userId,
              lockedAt := some now, lockedReason := some .booking_pending } }
        match alookup st.bookingLocks slotId with
        | some existingLock =>
            if existingLock.userId ≠ userId then
              ((false, some "该时间段已被其他用户锁定"), st)
            else ((true, none), commit)
        | none => ((true, none), commit)

/-- Model of `MockBookingAPI.unlockSlot`. -/
def unlockSlot (st : ApiState) (slotId userId : String) :
    (Bool × Option String) × ApiState :=
  match alookup st.slots slotId, alookup st.bookingLocks slotId with
  | some slot, some lock =>
      if lock.userId ≠ userId then
        ((false, some "只能解锁自己锁定的时间段"), st)
      else
        let st1 :=
          if slot.status = SlotStatus.locked ∧ isFalsy slot.bookedBy then
            { st with slots := aset st.slots slotId { slot with
                status := .available, lockedBy := none,
                lockedAt := none, lockedReason := none } }
          else st
        ((true, none), { st1 with bookingLocks := aremove st1.bookingLocks slotId })
  | _, _ => ((false, some "时间段或锁定记录不存在"), st)

/-- One step of `MockBookingAPI.cleanupExpiredLocks`'s `forEach` body for the
lock entry `e`. -/
def evictLock (now : Nat) (acc : ApiState) (e : String × ApiLockRec) : ApiState :=
  if now - e.2.lockedAt > 30000 then
    let acc1 :=
      match alookup acc.slots e.1 with
      | some slot =>
          if slot.status = SlotStatus.locked ∧ isFalsy slot.bookedBy then
            { acc with slots := aset acc.slots e.1 { slot with
                status := .available, lockedBy := none,
                lockedAt := none, lockedReason := none } }
          else acc
      | none => acc
    { acc1 with bookingLocks := aremove acc1.bookingLocks e.1 }
  else acc

/-- Model of `MockBookingAPI.cleanupExpiredLocks`: the `forEach` visits every entry of
the table; each iteration deletes at most its own entry, so iterating the
starting entry list is equivalent to the live JS iteration. -/
def cleanupExpiredLocks (st : ApiState) (now : Nat) : ApiState :=
  st.bookingLocks.foldl (evictLock now) st

/-- Model of `MockBookingAPI.getAvailableSlots`: snapshot of the slot values is taken
(and filtered) before `cleanupExpiredLocks` runs. -/
def getAvailableSlots (st : ApiState) (resourceId : Option String) (now : Nat) :
    List TimeSlot × ApiState :=
  let slots := st.slots.map Prod.snd
  let slots := if isFalsy resourceId then slots
               else slots.filter fun s => s.resourceId = resourceId
  (slots, cleanupExpiredLocks st now)

/-- One registry operation, with its oracle inputs made explicit. -/
inductive ApiOp
  | book (request : BookingRequest) (now : Nat) (preempt : Option String)
  | cancel (slotId userId : String)
  | lock (slotId userId : String) (now : Nat)
  | unlock (slotId userId : String)
  | cleanup (now : Nat)
  | listSlots (resourceId : Option String) (now : Nat)
deriving DecidableEq, Repr

/-- State effect of one registry operation. -/
def applyOp (st : ApiState) : ApiOp → ApiState
  | .book request now preempt => (bookSlot st request now preempt).2
  | .cancel slotId userId => (cancelBooking st slotId userId).2
  | .lock slotId userId now => (lockSlot st slotId userId now).2
  | .unlock slotId userId => (unlockSlot st slotId userId).2
  | .cleanup now => cleanupExpiredLocks st now
  | .listSlots resourceId now => (getAvailableSlots st resourceId now).2

/-- Run a serialized sequence of registry operations. -/
def runOps (st : ApiState) (ops : List ApiOp) : ApiState :=
  ops.foldl applyOp st

/-! ## `GlobalEventBus` (`src/services/GlobalEventBus.ts`) -/

/-- Entry of the shared `booking_locks` table kept in `localStorage`. -/
structure LockRec where
  userId : String
  lockedAt : Nat
deriving DecidableEq, Repr

/-- The shared lock table. -/
abbrev LockTable := List (String × LockRec)

/-- Broadcast message kinds exchanged through the bus. -/
inductive BusEvent
  | lock_acquired (slotId userId : String)
  | lock_released (slotId userId : String)
  | booking_confirmed (slotId userId : String) (slot : TimeSlot)
  | locks_cleaned
deriving DecidableEq, Repr

/-- Model of `GlobalEventBus.acquireLock`: result, new table, broadcast events. -/
def acquireLock (locks : LockTable) (slotId userId : String) (now : Nat) :
    Bool × LockTable × List BusEvent :=
  match alookup locks slotId with
  | some existing =>
      if now - existing.lockedAt ≤ 30000 ∧ existing.userId ≠ userId then
        (false, locks, [])
      else if existing.userId = userId then
        (true, aset locks slotId ⟨userId, now⟩, [])
      else
        (true, aset locks slotId ⟨userId, now⟩, [.lock_acquired slotId userId])
  | none =>
      (true, aset locks slotId ⟨userId, now⟩, [.lock_acquired slotId userId])

/-- Model of `GlobalEventBus.releaseLock`; here `userId = none` is the internal call with
the holder argument omitted, which deletes unconditionally. The broadcast
names the previous holder. -/
def releaseLock (locks : LockTable) (slotId : String) (userId : Option String) :
    LockTable × List BusEvent :=
  match alookup locks slotId with
  | some rec =>
      if isFalsy userId ∨ userId = some rec.userId then
        (aremove locks slotId, [.lock_released slotId rec.userId])
      else (locks, [])
  | none => (locks, [])

/-- Model of `GlobalEventBus.getLock`: lazy eviction of an expired record on read. -/
def getLock (locks : LockTable) (slotId : String) (now : Nat) :
    Option LockRec × LockTable × List BusEvent :=
  match alookup locks slotId with
  | some lock =>
      if now - lock.lockedAt > 30000 then
        let r := releaseLock locks slotId none
        (none, r.1, r.2)
      else (some lock, locks, [])
  | none => (none, locks, [])

/-- Model of `GlobalEventBus.cleanupLocks`: the periodic sweep. Deletes every expired
record; if anything was deleted it broadcasts a single `locks_cleaned`. -/
def cleanupLocks (locks : LockTable) (now : Nat) : LockTable × List BusEvent :=
  if (locks.filter fun p => ¬ now - p.2.lockedAt > 30000).length = locks.length
  then (locks, [])
  else (locks.filter fun p => ¬ now - p.2.lockedAt > 30000, [.locks_cleaned])

/-! ## `BookingStore` (`src/stores/BookingStore.ts`) -/

/-- Status of a client-local pending booking. -/
inductive PendingStatus
  | pending
  | confirmed
  | failed
deriving DecidableEq, Repr

/-- Entry of `clientState.pendingBookings`. -/
structure PendingBooking where
  slotId : String
  timestamp : Nat
  status : PendingStatus
deriving DecidableEq, Repr

/-- Which user-visible message `BookingStore` put into `this.error`
(the concrete display string carries no further control-flow content). -/
inductive StoreError
  | conflictBooked (bookedBy : Option String) (bookedAt : Option Nat)
  | bookingTimeout
  | loadFailed
  | disconnected
deriving DecidableEq, Repr

/-- The store state the claims are about: observable `slots` plus the
client-local `pendingBookings` / `optimisticUpdates` maps and error slot. -/
structure ClientState where
  slots : List (String × TimeSlot)
  pendingBookings : List (String × PendingBooking)
  optimisticUpdates : List (String × TimeSlot)
  error : Option StoreError
  currentUser : Option String
deriving DecidableEq, Repr

/-- Model of `BookingStore.applyOptimisticUpdate`. Note the source caches
`optimisticSlot` itself — not the prior slot value — in
`optimisticUpdates`. -/
def applyOptimisticUpdate (cs : ClientState) (slotId : String)
    (optimisticSlot : TimeSlot) (now : Nat) : ClientState :=
  { cs with
    slots := aset cs.slots slotId optimisticSlot
    optimisticUpdates := aset cs.optimisticUpdates slotId optimisticSlot
    pendingBookings := aset cs.pendingBookings slotId
      ⟨slotId, now, .pending⟩ }

/-- Model of `BookingStore.clearOptimisticUpdate`. -/
def clearOptimisticUpdate (cs : ClientState) (slotId : String) : ClientState :=
  { cs with
    optimisticUpdates := aremove cs.optimisticUpdates slotId
    pendingBookings := aremove cs.pendingBookings slotId }

/-- Model of `BookingStore.handleBookingFailure`. -/
def handleBookingFailure (cs : ClientState) (slotId : String)
    (response : BookingResponse) : ClientState :=
  let cs1 :=
    match alookup cs.optimisticUpdates slotId with
    | some originalSlot =>
        clearOptimisticUpdate
          { cs with slots := aset cs.slots slotId originalSlot } slotId
    | none => cs
  match response.conflict with
  | some c => { cs1 with error := some (.conflictBooked c.bookedBy c.bookedAt) }
  | none => cs1

/-- Model of `BookingStore.handleBookingTimeout`. -/
def handleBookingTimeout (cs : ClientState) (slotId : String) : ClientState :=
  match alookup cs.optimisticUpdates slotId with
  | some originalSlot =>
      let revertedSlot := { originalSlot with
        status := SlotStatus.available, lockedBy := none, lockedAt := none }
      { (clearOptimisticUpdate
          { cs with slots := aset cs.slots slotId revertedSlot } slotId) with
        error := some .bookingTimeout }
  | none => cs

/-- The `setTimeout` callback armed by `applyOptimisticUpdate`: fire the
timeout handler only if the pending booking is still `pending`. -/
def pendingTimerFire (cs : ClientState) (slotId : String) : ClientState :=
  match alookup cs.pendingBookings slotId with
  | some pending =>
      if pending.status = PendingStatus.pending then
        handleBookingTimeout cs slotId
      else cs
  | none => cs

/-- The `lock_acquired` listener of `setupGlobalEventListeners`. -/
def onLockAcquired (cs : ClientState) (slotId userId : String) (now : Nat) :
    ClientState :=
  if cs.currentUser = some userId then cs
  else
    match alookup cs.slots slotId with
    | some slot =>
        if slot.status = SlotStatus.available then
          { cs with slots := aset cs.slots slotId { slot with
              status := SlotStatus.locked, lockedBy := some userId,
              lockedAt := some now } }
        else cs
    | none => cs

/-- The `lock_released` listener of `setupGlobalEventListeners`
(no originating-user check in the source). -/
def onLockReleased (cs : ClientState) (slotId : String) : ClientState :=
  match alookup cs.slots slotId with
  | some slot =>
      if slot.status = SlotStatus.locked then
        { cs with slots := aset cs.slots slotId { slot with
            status := SlotStatus.available, lockedBy := none,
            lockedAt := none } }
      else cs
  | none => cs

/-- The `booking_confirmed` listener of `setupGlobalEventListeners`. -/
def onBookingConfirmed (cs : ClientState) (slotId userId : String)
    (slot : TimeSlot) : ClientState :=
  if cs.currentUser = some userId then cs
  else
    { cs with
      slots := aset cs.slots slotId slot
      optimisticUpdates := aremove cs.optimisticUpdates slotId }

/-- Dispatch of a broadcast event delivered to this participant's listeners
(`locks_cleaned` has no listener in `BookingStore`). -/
def handleBusEvent (cs : ClientState) (e : BusEvent) (now : Nat) : ClientState :=
  match e with
  | .lock_acquired slotId userId => onLockAcquired cs slotId userId now
  | .lock_released slotId _ => onLockReleased cs slotId
  | .booking_confirmed slotId userId slot => onBookingConfirmed cs slotId userId slot
  | .locks_cleaned => cs

/-- The slot id a broadcast event concerns, if any. -/
def eventSlotId : BusEvent → Option String
  | .lock_acquired slotId _ => some slotId
  | .lock_released slotId _ => some slotId
  | .booking_confirmed slotId _ _ => some slotId
  | .locks_cleaned => none

/-- Constant `maxPendingTime` from `BookingStore`'s `ConcurrencyConfig`:
the pending-booking timeout, 10000 ms (10 time units). -/
def maxPendingTime : Nat := 10000

/-! ## Concrete store scenarios -/

/-- A pristine `Available` slot used in concrete store scenarios. -/
def preSlot : TimeSlot :=
  { id := "slot-1", startTime := 0, endTime := 1800000,
    status := SlotStatus.available, price := some 50,
    resourceId := some "room-001" }

/-- The speculative `Locked` view `BookingStore.bookSlot` applies for
user `u1`. -/
def specSlot : TimeSlot :=
  { preSlot with
    status := SlotStatus.locked, lockedBy := some "u1", lockedAt := some 100 }

/-- The canonical slot after a competing user `u2` won the booking. -/
def peerBookedSlot : TimeSlot :=
  { preSlot with
    status := SlotStatus.booked, bookedBy := some "u2", bookedAt := some 200 }

/-- Client store of user `u1` displaying the pristine slot. -/
def storeState0 : ClientState :=
  { slots := [("slot-1", preSlot)], pendingBookings := [],
    optimisticUpdates := [], error := none, currentUser := some "u1" }

/-- State `storeState0` after `u1`'s speculative update for `slot-1`. -/
def pendingStore : ClientState :=
  applyOptimisticUpdate storeState0 "slot-1" specSlot 100

/-- State `pendingStore` after processing a peer `booking_confirmed` broadcast for
the same slot, won by `u2`. -/
def confirmedStore : ClientState :=
  handleBusEvent pendingStore (.booking_confirmed "slot-1" "u2" peerBookedSlot) 200

/-- Serialized processing of booking requests by the arbiter, each request
paired with its `now` instant and its preemption oracle value. -/
def runBookings : ApiState →
    List (BookingRequest × Nat × Option String) →
    List BookingResponse × ApiState
  | st, [] => ([], st)
  | st, (req, now, preempt) :: rest =>
      let r := bookSlot st req now preempt
      let rr := runBookings r.2 rest
      (r.1 :: rr.1, rr.2)

/-- Registry holding the single `Available` slot `preSlot`. -/
def apiState0 : ApiState := ⟨[("slot-1", preSlot)], [], []⟩

/-- The claimed slot invariant: at most one of `lockedBy`/`bookedBy` is set,
`bookedAt` is set iff status = Booked, `lockedAt` is set iff
status = Locked. -/
def SlotInv (s : TimeSlot) : Prop :=
  (s.lockedBy = none ∨ s.bookedBy = none) ∧
  (s.bookedAt.isSome ↔ s.status = SlotStatus.booked) ∧
  (s.lockedAt.isSome ↔ s.status = SlotStatus.locked)

/-- The inductive strengthening of `SlotInv` that the registry operations
actually maintain on every reachable state. -/
def SlotStrong (s : TimeSlot) : Prop :=
  match s.status with
  | SlotStatus.available =>
      s.lockedBy = none ∧ s.lockedAt = none ∧
      s.bookedBy = none ∧ s.bookedAt = none
  | SlotStatus.locked =>
      s.lockedBy.isSome ∧ s.lockedAt.isSome ∧
      s.bookedBy = none ∧ s.bookedAt = none
  | SlotStatus.booked =>
      s.lockedBy = none ∧ s.lockedAt = none ∧
      s.bookedBy.isSome ∧ s.bookedAt.isSome
  | SlotStatus.expired => False

/-- All slots of a registry state satisfy the strong invariant. -/
def StateStrong (st : ApiState) : Prop := ∀ p ∈ st.slots, SlotStrong p.2


/-! ## General association-list lemmas -/

theorem alookup_aset_self {α : Type} (l : List (String × α)) (k : String) (v : α) :
    alookup (aset l k v) k = some v := by
  induction l with
  | nil => simp [aset, alookup]
  | cons hd tl ih =>
      obtain ⟨k', v'⟩ := hd
      by_cases h : k' = k <;> simp [aset, alookup, h, ih]

theorem alookup_aset_ne {α : Type} (l : List (String × α)) (k j : String) (v : α)
    (h : j ≠ k) : alookup (aset l k v) j = alookup l j := by
  induction l with
  | nil =>
      have hkj : ¬ k = j := fun hh => h hh.symm
      simp [aset, alookup, hkj]
  | cons hd tl ih =>
      obtain ⟨k', v'⟩ := hd
      by_cases hk : k' = k
      · subst hk
        have hkj : ¬ k' = j := fun hh => h hh.symm
        simp [aset, alookup, hkj]
      · simp [aset, alookup, hk]
        by_cases hj : k' = j <;> simp [hj, ih]

theorem alookup_aremove_self {α : Type} (l : List (String × α)) (k : String) :
    alookup (aremove l k) k = none := by
  induction l with
  | nil => simp [aremove, alookup]
  | cons hd tl ih =>
      obtain ⟨k', v'⟩ := hd
      by_cases h : k' = k <;> simp [aremove, alookup, h, ih]

theorem alookup_aremove_ne {α : Type} (l : List (String × α)) (k j : String)
    (h : j ≠ k) : alookup (aremove l k) j = alookup l j := by
  induction l with
  | nil => simp [aremove]
  | cons hd tl ih =>
      obtain ⟨k', v'⟩ := hd
      by_cases hk : k' = k
      · subst hk
        have hkj : ¬ k' = j := fun hh => h hh.symm
        simp [aremove, alookup, ih, hkj]
      · simp [aremove, alookup, hk]
        by_cases hj : k' = j <;> simp [hj, ih]

/-- Every entry of `aset l k v` is an old entry or the new binding. -/
theorem mem_aset {α : Type} (l : List (String × α)) (k : String) (v : α)
    (p : String × α) (hp : p ∈ aset l k v) : p ∈ l ∨ p = (k, v) := by
  induction l with
  | nil => simpa [aset] using hp
  | cons hd tl ih =>
      obtain ⟨k', v'⟩ := hd
      by_cases h : k' = k
      · simp [aset, h] at hp
        rcases hp with h1 | h2
        · subst h; exact Or.inr (by simp [h1])
        · exact Or.inl (by simp [h2])
      · simp [aset, h] at hp
        rcases hp with h1 | h2
        · exact Or.inl (by simp [h1])
        · rcases ih h2 with h3 | h3
          · exact Or.inl (by simp [h3])
          · exact Or.inr h3

/-- Every entry of `aremove l k` is an entry of `l`. -/
theorem mem_aremove {α : Type} (l : List (String × α)) (k : String)
    (p : String × α) (hp : p ∈ aremove l k) : p ∈ l := by
  induction l with
  | nil => simp [aremove] at hp
  | cons hd tl ih =>
      obtain ⟨k', v'⟩ := hd
      by_cases h : k' = k
      · simp [aremove, h] at hp
        exact List.mem_cons_of_mem _ (ih hp)
      · simp [aremove, h] at hp
        rcases hp with h1 | h2
        · exact by simp [h1]
        · exact List.mem_cons_of_mem _ (ih h2)

/-- A successful lookup returns an entry of the list. -/
theorem alookup_mem {α : Type} (l : List (String × α)) (k : String) (v : α)
    (h : alookup l k = some v) : (k, v) ∈ l := by
  induction l with
  | nil => simp [alookup] at h
  | cons hd tl ih =>
      obtain ⟨k', v'⟩ := hd
      by_cases hk : k' = k
      · subst hk
        simp [alookup] at h
        simp [h]
      · simp [alookup, hk] at h
        exact List.mem_cons_of_mem _ (ih h)

/-! ## C2: order of the arbiter's failure checks -/

/-- C2: evaluated against the registry's current state, `bookSlot` fails with
`SLOT_NOT_FOUND` on an unknown id; otherwise, if the slot is `Booked`, with
`SLOT_ALREADY_BOOKED` carrying a conflict descriptor built from the slot's
current `bookedBy` / `bookedAt`; otherwise, if the slot is `Locked` by some
other holder, with `SLOT_LOCKED_BY_OTHER` — in exactly this order. -/
theorem bookSlot_error_precedence (st : ApiState) (request : BookingRequest)
    (now : Nat) (preempt : Option String) :
    (alookup st.slots request.slotId = none →
      (bookSlot st request now preempt).1 =
        { success := false, error := some ⟨.SLOT_NOT_FOUND, "时间段不存在"⟩ } ∧
      (bookSlot st request now preempt).2 = st) ∧
    (∀ slot, alookup st.slots request.slotId = some slot →
      slot.status = SlotStatus.booked →
      (bookSlot st request now preempt).1 =
        { success := false,
          error := some ⟨.SLOT_ALREADY_BOOKED, "该时间段已被预定"⟩,
          conflict := some ⟨slot.id, slot.bookedBy, slot.bookedAt⟩ } ∧
      (bookSlot st request now preempt).2 = st) ∧
    (∀ slot, alookup st.slots request.slotId = some slot →
      slot.status = SlotStatus.locked →
      slot.lockedBy ≠ some request.userId →
      (bookSlot st request now preempt).1 =
        { success := false,
          error := some ⟨.SLOT_LOCKED_BY_OTHER, "该时间段正在被其他用户预定"⟩ } ∧
      (bookSlot st request now preempt).2 = st) := by
  refine ⟨fun h => ?_, fun slot h hb => ?_, fun slot h hl hlb => ?_⟩
  · simp [bookSlot, h]
  · simp [bookSlot, h, hb]
  · simp [bookSlot, h, hl, hlb]

/-- Witness for C2 at a concrete registry state. -/
theorem bookSlot_error_precedence_witness :
    (bookSlot ⟨[], [], []⟩ ⟨"slot-1", "u1", 0, "c1"⟩ 5 none).1 =
      { success := false, error := some ⟨.SLOT_NOT_FOUND, "时间段不存在"⟩ } ∧
    (bookSlot ⟨[], [], []⟩ ⟨"slot-1", "u1", 0, "c1"⟩ 5 none).2 = ⟨[], [], []⟩ :=
  (bookSlot_error_precedence ⟨[], [], []⟩ ⟨"slot-1", "u1", 0, "c1"⟩ 5 none).1 rfl

/-! ## C5: lock mutual exclusion and re-entrant renewal -/

/-- C5: after `A` freshly acquires a slot's lock (creating the record and
broadcasting `lock_acquired`), an acquire by `B ≠ A` within the TTL fails
and leaves the table unchanged with no broadcast, while a re-acquire by `A`
succeeds, refreshes the record's timestamp and broadcasts nothing. -/
theorem acquireLock_mutual_exclusion (locks : LockTable) (slot A B : String)
    (tA tB tA2 : Nat) (hfresh : alookup locks slot = none) (hne : B ≠ A)
    (hlive : tB - tA ≤ 30000) (hlive2 : tA2 - tA ≤ 30000) :
    acquireLock locks slot A tA =
      (true, aset locks slot ⟨A, tA⟩, [.lock_acquired slot A]) ∧
    acquireLock (aset locks slot ⟨A, tA⟩) slot B tB =
      (false, aset locks slot ⟨A, tA⟩, []) ∧
    acquireLock (aset locks slot ⟨A, tA⟩) slot A tA2 =
      (true, aset (aset locks slot ⟨A, tA⟩) slot ⟨A, tA2⟩, []) := by
  have hAB : A ≠ B := fun hh => hne hh.symm
  refine ⟨?_, ?_, ?_⟩
  · simp [acquireLock, hfresh]
  · simp [acquireLock, alookup_aset_self, hlive, hAB]
  · simp [acquireLock, alookup_aset_self]

/-- Witness for C5 at concrete holders and instants. -/
theorem acquireLock_mutual_exclusion_witness :
    acquireLock [] "slot-1" "alice" 0 =
      (true, aset [] "slot-1" ⟨"alice", 0⟩, [.lock_acquired "slot-1" "alice"]) ∧
    acquireLock (aset [] "slot-1" ⟨"alice", 0⟩) "slot-1" "bob" 10000 =
      (false, aset [] "slot-1" ⟨"alice", 0⟩, []) ∧
    acquireLock (aset [] "slot-1" ⟨"alice", 0⟩) "slot-1" "alice" 20000 =
      (true, aset (aset [] "slot-1" ⟨"alice", 0⟩) "slot-1" ⟨"alice", 20000⟩, []) :=
  acquireLock_mutual_exclusion [] "slot-1" "alice" "bob" 0 10000 20000
    rfl (by decide) (by decide) (by decide)

/-! ## C6: TTL convergence -/

/-- C6 counterexample: a lock acquired at instant 0 and observed at
`now = 30000` — i.e. exactly 30 time units later, so `now − t ≥ 30000` —
is still treated as live: an acquire attempt by a different holder is
refused and the read returns the record instead of evicting it. The claim's
`≥ 30` bound fails at the boundary; eviction requires strictly more. -/
theorem ttl_convergence_counterexample :
    (acquireLock [("slot-1", ⟨"alice", 0⟩)] "slot-1" "bob" 30000).1 = false ∧
    (getLock [("slot-1", ⟨"alice", 0⟩)] "slot-1" 30000).1 = some ⟨"alice", 0⟩ := by
  constructor <;> decide

theorem evictLock_slots_ne (now : Nat) (acc : ApiState) (e : String × ApiLockRec)
    (j : String) (h : j ≠ e.1) :
    alookup (evictLock now acc e).slots j = alookup acc.slots j := by
  unfold evictLock
  by_cases hx : now - e.2.lockedAt > 30000
  · rw [if_pos hx]
    cases hsl : alookup acc.slots e.1 with
    | none => simp [hsl]
    | some slot =>
        by_cases hc : slot.status = SlotStatus.locked ∧ isFalsy slot.bookedBy
        · simp [hsl, hc, alookup_aset_ne _ _ _ _ h]
        · simp [hsl, hc]
  · rw [if_neg hx]

theorem evictLock_bookingLocks_ne (now : Nat) (acc : ApiState)
    (e : String × ApiLockRec) (j : String) (h : j ≠ e.1) :
    alookup (evictLock now acc e).bookingLocks j = alookup acc.bookingLocks j := by
  unfold evictLock
  by_cases hx : now - e.2.lockedAt > 30000
  · rw [if_pos hx]
    cases hsl : alookup acc.slots e.1 with
    | none => simp [hsl, alookup_aremove_ne _ _ _ h]
    | some slot =>
        by_cases hc : slot.status = SlotStatus.locked ∧ isFalsy slot.bookedBy
        · simp [hsl, hc, alookup_aremove_ne _ _ _ h]
        · simp [hsl, hc, alookup_aremove_ne _ _ _ h]
  · rw [if_neg hx]

theorem foldl_evictLock_frame (now : Nat) (L : List (String × ApiLockRec))
    (acc : ApiState) (j : String) (h : j ∉ L.map Prod.fst) :
    alookup (L.foldl (evictLock now) acc).slots j = alookup acc.slots j ∧
    alookup (L.foldl (evictLock now) acc).bookingLocks j =
      alookup acc.bookingLocks j := by
  induction L generalizing acc with
  | nil => exact ⟨rfl, rfl⟩
  | cons e L ih =>
      simp only [List.map_cons, List.mem_cons, not_or] at h
      obtain ⟨h1, h2⟩ := h
      have := ih (evictLock now acc e) h2
      refine ⟨?_, ?_⟩
      · rw [List.foldl_cons, this.1, evictLock_slots_ne _ _ _ _ h1]
      · rw [List.foldl_cons, this.2, evictLock_bookingLocks_ne _ _ _ _ h1]

theorem evictLock_hit (now : Nat) (acc : ApiState) (sid : String)
    (rec : ApiLockRec) (slotv : TimeSlot)
    (hexp : now - rec.lockedAt > 30000)
    (hsl : alookup acc.slots sid = some slotv)
    (hst : slotv.status = SlotStatus.locked) (hnb : slotv.bookedBy = none) :
    alookup (evictLock now acc (sid, rec)).slots sid =
      some { slotv with
             status := SlotStatus.available, lockedBy := none,
             lockedAt := none, lockedReason := none } ∧
    alookup (evictLock now acc (sid, rec)).bookingLocks sid = none := by
  unfold evictLock
  simp [hexp, hsl, hst, hnb, isFalsy, alookup_aset_self, alookup_aremove_self]

/-- C6 (amended): a lock acquired at instant `t` and never released becomes
dead once strictly more than 30 time units have elapsed (`now − t > 30000`):
an acquire by a different holder then succeeds (fresh acquisition with a
`lock_acquired` broadcast), a read evicts the record, broadcasts
`lock_released` naming the old holder and reports the slot unlocked, and the
registry's expired-lock sweep returns the slot to `Available`. -/
theorem ttl_convergence (locks : LockTable) (st : ApiState)
    (l1 l2 : List (String × ApiLockRec)) (slotId A B : String) (tA now : Nat)
    (rec : ApiLockRec) (slotv : TimeSlot)
    (hlk : alookup locks slotId = some ⟨A, tA⟩)
    (hexp : now - tA > 30000) (hne : B ≠ A)
    (hlocks : st.bookingLocks = l1 ++ (slotId, rec) :: l2)
    (h1 : slotId ∉ l1.map Prod.fst) (h2 : slotId ∉ l2.map Prod.fst)
    (hrecexp : now - rec.lockedAt > 30000)
    (hslot : alookup st.slots slotId = some slotv)
    (hst : slotv.status = SlotStatus.locked) (hnb : slotv.bookedBy = none) :
    acquireLock locks slotId B now =
      (true, aset locks slotId ⟨B, now⟩, [.lock_acquired slotId B]) ∧
    getLock locks slotId now =
      (none, aremove locks slotId, [.lock_released slotId A]) ∧
    alookup (cleanupExpiredLocks st now).slots slotId =
      some { slotv with
             status := SlotStatus.available, lockedBy := none,
             lockedAt := none, lockedReason := none } ∧
    alookup (cleanupExpiredLocks st now).bookingLocks slotId = none := by
  have hnle : ¬ now - tA ≤ 30000 := by omega
  have hne2 : A ≠ B := fun hh => hne hh.symm
  refine ⟨?_, ?_, ?_⟩
  · simp [acquireLock, hlk, hnle, hne2]
  · simp [getLock, hlk, hexp, releaseLock, isFalsy]
  · have hsplit : cleanupExpiredLocks st now =
        l2.foldl (evictLock now)
          (evictLock now (l1.foldl (evictLock now) st) (slotId, rec)) := by
      rw [cleanupExpiredLocks, hlocks, List.foldl_append, List.foldl_cons]
    have hA := foldl_evictLock_frame now l1 st slotId h1
    have hhit := evictLock_hit now (l1.foldl (evictLock now) st) slotId rec slotv
      hrecexp (hA.1.trans hslot) hst hnb
    have hB := foldl_evictLock_frame now l2
      (evictLock now (l1.foldl (evictLock now) st) (slotId, rec)) slotId h2
    rw [hsplit]
    exact ⟨hB.1.trans hhit.1, hB.2.trans hhit.2⟩

/-- Witness for C6 (amended) at concrete instants t = 0, now = 30001. -/
theorem ttl_convergence_witness :
    acquireLock [("slot-1", ⟨"alice", 0⟩)] "slot-1" "bob" 30001 =
      (true, aset [("slot-1", ⟨"alice", 0⟩)] "slot-1" ⟨"bob", 30001⟩,
       [.lock_acquired "slot-1" "bob"]) ∧
    getLock [("slot-1", ⟨"alice", 0⟩)] "slot-1" 30001 =
      (none, aremove [("slot-1", ⟨"alice", 0⟩)] "slot-1",
       [.lock_released "slot-1" "alice"]) ∧
    alookup (cleanupExpiredLocks
        ⟨[("slot-1", { id := "slot-1", startTime := 0, endTime := 1800000,
                       status := SlotStatus.locked, lockedBy := some "alice",
                       lockedAt := some 0 })],
         [("slot-1", ⟨"alice", 0⟩)], []⟩ 30001).slots "slot-1" =
      some { id := "slot-1", startTime := 0, endTime := 1800000,
             status := SlotStatus.available } ∧
    alookup (cleanupExpiredLocks
        ⟨[("slot-1", { id := "slot-1", startTime := 0, endTime := 1800000,
                       status := SlotStatus.locked, lockedBy := some "alice",
                       lockedAt := some 0 })],
         [("slot-1", ⟨"alice", 0⟩)], []⟩ 30001).bookingLocks "slot-1" = none :=
  ttl_convergence [("slot-1", ⟨"alice", 0⟩)]
    ⟨[("slot-1", { id := "slot-1", startTime := 0, endTime := 1800000,
                   status := SlotStatus.locked, lockedBy := some "alice",
                   lockedAt := some 0 })],
     [("slot-1", ⟨"alice", 0⟩)], []⟩
    [] [] "slot-1" "alice" "bob" 0 30001 ⟨"alice", 0⟩
    { id := "slot-1", startTime := 0, endTime := 1800000,
      status := SlotStatus.locked, lockedBy := some "alice", lockedAt := some 0 }
    rfl (by decide) (by decide) rfl (by decide) (by decide) (by decide)
    rfl rfl rfl

/-! ## C8: the periodic lock sweep -/

theorem filter_eq_of_length_eq {α : Type} (p : α → Bool) (l : List α)
    (h : (l.filter p).length = l.length) : l.filter p = l :=
  (List.filter_sublist l).eq_of_length h

/-- C8 counterexample: sweeping a table holding a single dead record (locked
at 0, swept at 40000) evicts it but broadcasts only the single slot-id-free
`locks_cleaned` event — no `lock_released` event naming the evicted slot is
broadcast, contrary to the claim. -/
theorem cleanupLocks_broadcast_counterexample :
    cleanupLocks [("slot-1", ⟨"alice", 0⟩)] 40000 =
      ([], [BusEvent.locks_cleaned]) := by
  decide

/-- C8 (amended): each sweep run deletes exactly the records strictly older
than the 30-unit TTL; when at least one record was evicted it broadcasts a
single `locks_cleaned` event carrying no slot id (never a per-record
`lock_released` event), and when nothing was evicted it broadcasts
nothing. -/
theorem cleanupLocks_spec (locks : LockTable) (now : Nat) :
    (cleanupLocks locks now).1 =
      locks.filter (fun p => ¬ now - p.2.lockedAt > 30000) ∧
    (∀ p ∈ locks, now - p.2.lockedAt > 30000 → p ∉ (cleanupLocks locks now).1) ∧
    (∀ p ∈ locks, ¬ now - p.2.lockedAt > 30000 → p ∈ (cleanupLocks locks now).1) ∧
    ((∀ p ∈ locks, ¬ now - p.2.lockedAt > 30000) →
      cleanupLocks locks now = (locks, [])) ∧
    (∀ s u, BusEvent.lock_released s u ∉ (cleanupLocks locks now).2) := by
  have hfst : (cleanupLocks locks now).1 =
      locks.filter (fun p => ¬ now - p.2.lockedAt > 30000) := by
    unfold cleanupLocks
    by_cases h : (locks.filter fun p => ¬ now - p.2.lockedAt > 30000).length =
        locks.length
    · rw [if_pos h]
      exact (filter_eq_of_length_eq _ _ h).symm
    · rw [if_neg h]
  refine ⟨hfst, ?_, ?_, ?_, ?_⟩
  · intro p hp hdead hmem
    rw [hfst] at hmem
    have := (List.mem_filter.1 hmem).2
    simp only [decide_eq_true_eq] at this
    exact this hdead
  · intro p hp hlive
    rw [hfst]
    exact List.mem_filter.2 ⟨hp, by simpa using hlive⟩
  · intro hall
    have heq : (locks.filter fun p => ¬ now - p.2.lockedAt > 30000) = locks :=
      List.filter_eq_self.2 fun p hp => by simpa using hall p hp
    unfold cleanupLocks
    rw [if_pos (by rw [heq])]
  · intro s u hmem
    unfold cleanupLocks at hmem
    by_cases h : (locks.filter fun p => ¬ now - p.2.lockedAt > 30000).length =
        locks.length
    · rw [if_pos h] at hmem
      simp at hmem
    · rw [if_neg h] at hmem
      simp at hmem

/-- Witness for C8 (amended): concrete sweep that evicts one dead record. -/
theorem cleanupLocks_spec_witness :
    ("slot-1", (⟨"alice", 0⟩ : LockRec)) ∉
      (cleanupLocks [("slot-1", ⟨"alice", 0⟩), ("slot-2", ⟨"bob", 20000⟩)]
        40000).1 ∧
    ("slot-2", (⟨"bob", 20000⟩ : LockRec)) ∈
      (cleanupLocks [("slot-1", ⟨"alice", 0⟩), ("slot-2", ⟨"bob", 20000⟩)]
        40000).1 :=
  ⟨(cleanupLocks_spec [("slot-1", ⟨"alice", 0⟩), ("slot-2", ⟨"bob", 20000⟩)]
      40000).2.1 _ (by simp) (by decide),
   (cleanupLocks_spec [("slot-1", ⟨"alice", 0⟩), ("slot-2", ⟨"bob", 20000⟩)]
      40000).2.2.1 _ (by simp) (by decide)⟩

/-! ## C10: `getAvailableSlots` returns every slot, snapshotted pre-eviction -/

/-- C10: `getAvailableSlots` returns every slot of the catalog — with no
status filter, so `Locked`, `Booked` and `Expired` slots are included —
optionally filtered by resource id, and the returned values are taken from
the state *before* the call's `cleanupExpiredLocks` side effect, which
produces the returned state. -/
theorem getAvailableSlots_spec (st : ApiState) (rid : String) (now : Nat) :
    (getAvailableSlots st none now).1 = st.slots.map Prod.snd ∧
    (rid ≠ "" → (getAvailableSlots st (some rid) now).1 =
      (st.slots.map Prod.snd).filter fun s => s.resourceId = some rid) ∧
    (∀ r : Option String, (getAvailableSlots st r now).2 =
      cleanupExpiredLocks st now) ∧
    (∀ sid slot, alookup st.slots sid = some slot →
      slot ∈ (getAvailableSlots st none now).1) := by
  refine ⟨rfl, fun h => ?_, fun r => rfl, fun sid slot h => ?_⟩
  · simp [getAvailableSlots, isFalsy, h]
  · have := alookup_mem st.slots sid slot h
    simp only [getAvailableSlots, isFalsy]
    exact List.mem_map.2 ⟨(sid, slot), this, rfl⟩

/-- Witness for C10: a state holding one locked slot with an expired lock;
the pre-eviction `Locked` value is returned even though the same call evicts
the lock. -/
theorem getAvailableSlots_spec_witness :
    { id := "slot-1", startTime := 0, endTime := 1800000,
      status := SlotStatus.locked, lockedBy := some "alice",
      lockedAt := some 0 : TimeSlot } ∈
      (getAvailableSlots
        ⟨[("slot-1", { id := "slot-1", startTime := 0, endTime := 1800000,
                       status := SlotStatus.locked, lockedBy := some "alice",
                       lockedAt := some 0 })],
         [("slot-1", ⟨"alice", 0⟩)], []⟩ none 40000).1 :=
  (getAvailableSlots_spec
    ⟨[("slot-1", { id := "slot-1", startTime := 0, endTime := 1800000,
                   status := SlotStatus.locked, lockedBy := some "alice",
                   lockedAt := some 0 })],
     [("slot-1", ⟨"alice", 0⟩)], []⟩ "room-001" 40000).2.2.2 "slot-1" _ rfl

/-! ## C3: rollback and the Optimistic Snapshot -/

/-- C3 (code bug): `applyOptimisticUpdate` caches the *speculative* slot —
not the pre-update value — in `optimisticUpdates`, so the failure-handling
rollback path restores the speculative `Locked` value: after applying the
speculative update to the `Available` slot `preSlot` and handling a failure,
the locally stored slot is `specSlot`, which differs from the pre-update
value `preSlot` (contradicting the source's own `回滚到原始状态` /
`originalSlot` comments as well as the claim). -/
theorem rollback_restores_speculative_value :
    alookup storeState0.slots "slot-1" = some preSlot ∧
    alookup (handleBookingFailure pendingStore "slot-1"
        { success := false }).slots "slot-1" = some specSlot ∧
    specSlot ≠ preSlot := by
  refine ⟨?_, ?_, ?_⟩ <;> decide

/-! ## C4: pending-timeout handling -/

/-- C4 counterexample: a Pending Booking can still be `pending` when the
timer fires while the Optimistic Snapshot has already been cleared (here by
a peer `booking_confirmed` broadcast); the timeout handler then changes
nothing — the slot is not reverted to `Available` and the Pending Booking is
not deleted, contrary to the claim's "regardless" clause. -/
theorem timeout_after_peer_confirmation_counterexample :
    alookup confirmedStore.pendingBookings "slot-1" =
      some ⟨"slot-1", 100, .pending⟩ ∧
    pendingTimerFire confirmedStore "slot-1" = confirmedStore ∧
    alookup (pendingTimerFire confirmedStore "slot-1").slots "slot-1" =
      some peerBookedSlot := by
  refine ⟨?_, ?_, ?_⟩ <;> decide

/-- C4 (amended): when the timer fires with the Pending Booking still
`pending` *and* the Optimistic Snapshot still present, the handler stores
the snapshot value reset to `Available` with `lockedBy`/`lockedAt` cleared,
deletes both the Pending Booking and the Optimistic Snapshot, and surfaces
the timeout error; the pending timer length is `maxPendingTime` =
10000 ms (10 time units). -/
theorem pendingTimerFire_timeout (cs : ClientState) (slotId : String)
    (p : PendingBooking) (os : TimeSlot)
    (hp : alookup cs.pendingBookings slotId = some p)
    (hps : p.status = PendingStatus.pending)
    (hos : alookup cs.optimisticUpdates slotId = some os) :
    maxPendingTime = 10000 ∧
    pendingTimerFire cs slotId =
      { slots := aset cs.slots slotId
          { os with
            status := SlotStatus.available, lockedBy := none, lockedAt := none }
        pendingBookings := aremove cs.pendingBookings slotId
        optimisticUpdates := aremove cs.optimisticUpdates slotId
        error := some .bookingTimeout
        currentUser := cs.currentUser } := by
  refine ⟨rfl, ?_⟩
  simp [pendingTimerFire, hp, hps, handleBookingTimeout, hos,
    clearOptimisticUpdate]

/-- Witness for C4 (amended) on the concrete in-flight store. -/
theorem pendingTimerFire_timeout_witness :
    maxPendingTime = 10000 ∧
    pendingTimerFire pendingStore "slot-1" =
      { slots := aset pendingStore.slots "slot-1"
          { specSlot with
            status := SlotStatus.available, lockedBy := none, lockedAt := none }
        pendingBookings := aremove pendingStore.pendingBookings "slot-1"
        optimisticUpdates := aremove pendingStore.optimisticUpdates "slot-1"
        error := some .bookingTimeout
        currentUser := pendingStore.currentUser } :=
  pendingTimerFire_timeout pendingStore "slot-1" ⟨"slot-1", 100, .pending⟩
    specSlot (by decide) rfl (by decide)

/-! ## C7: reconciliation of peer broadcasts vs. in-flight pending state -/

/-- C7 counterexample: while `u1`'s Pending Booking for `slot-1` is
in-flight (`pending`, snapshot present), processing a peer
`booking_confirmed` broadcast for the same slot overwrites the local slot
with the winner's value and deletes the Optimistic Snapshot — the broadcast
does disturb the pending slot's state. -/
theorem peer_broadcast_disturbs_pending_counterexample :
    alookup pendingStore.pendingBookings "slot-1" =
      some ⟨"slot-1", 100, .pending⟩ ∧
    alookup pendingStore.optimisticUpdates "slot-1" = some specSlot ∧
    alookup confirmedStore.optimisticUpdates "slot-1" = none ∧
    alookup confirmedStore.slots "slot-1" = some peerBookedSlot := by
  refine ⟨?_, ?_, ?_, ?_⟩ <;> decide

theorem onLockAcquired_frame (cs : ClientState) (j v : String) (now : Nat)
    (S : String) (hj : S ≠ j) :
    alookup (onLockAcquired cs j v now).slots S = alookup cs.slots S ∧
    (onLockAcquired cs j v now).pendingBookings = cs.pendingBookings ∧
    (onLockAcquired cs j v now).optimisticUpdates = cs.optimisticUpdates := by
  unfold onLockAcquired
  by_cases hcu : cs.currentUser = some v
  · rw [if_pos hcu]
    exact ⟨rfl, rfl, rfl⟩
  · rw [if_neg hcu]
    cases hsl : alookup cs.slots j with
    | none => exact ⟨rfl, rfl, rfl⟩
    | some slot =>
        by_cases hav : slot.status = SlotStatus.available
        · simp [hav, alookup_aset_ne _ _ _ _ hj]
        · simp [hav]

theorem onLockReleased_frame (cs : ClientState) (j : String)
    (S : String) (hj : S ≠ j) :
    alookup (onLockReleased cs j).slots S = alookup cs.slots S ∧
    (onLockReleased cs j).pendingBookings = cs.pendingBookings ∧
    (onLockReleased cs j).optimisticUpdates = cs.optimisticUpdates := by
  unfold onLockReleased
  cases hsl : alookup cs.slots j with
  | none => exact ⟨rfl, rfl, rfl⟩
  | some slot =>
      by_cases hl : slot.status = SlotStatus.locked
      · simp [hl, alookup_aset_ne _ _ _ _ hj]
      · simp [hl]

theorem onBookingConfirmed_frame (cs : ClientState) (j v : String)
    (sl : TimeSlot) (S : String) (hj : S ≠ j) :
    alookup (onBookingConfirmed cs j v sl).slots S = alookup cs.slots S ∧
    (onBookingConfirmed cs j v sl).pendingBookings = cs.pendingBookings ∧
    alookup (onBookingConfirmed cs j v sl).optimisticUpdates S =
      alookup cs.optimisticUpdates S := by
  unfold onBookingConfirmed
  by_cases hcu : cs.currentUser = some v
  · rw [if_pos hcu]
    exact ⟨rfl, rfl, rfl⟩
  · rw [if_neg hcu]
    exact ⟨alookup_aset_ne _ _ _ _ hj, rfl, alookup_aremove_ne _ _ _ hj⟩

/-- C7 (amended): with a Pending Booking for slot `S` in-flight (the local
slot `S` holds the optimistic `Locked` view), a peer `lock_acquired` event
for `S` leaves the whole store unchanged (its `Available`-status guard
excludes the optimistic slot), and any broadcast concerning a *different*
slot leaves slot `S`'s local value, Pending Booking and Optimistic Snapshot
unchanged. (Peer `lock_released` / `booking_confirmed` events for `S`
itself may modify `S`'s local state, per the counterexample.) -/
theorem peer_broadcast_frame (cs : ClientState) (S u : String) (now : Nat)
    (p : PendingBooking) (os : TimeSlot)
    (hp : alookup cs.pendingBookings S = some p)
    (hps : p.status = PendingStatus.pending)
    (hs : alookup cs.slots S = some os)
    (hos : os.status = SlotStatus.locked) :
    handleBusEvent cs (.lock_acquired S u) now = cs ∧
    (∀ e : BusEvent, eventSlotId e ≠ some S →
      alookup (handleBusEvent cs e now).slots S = alookup cs.slots S ∧
      alookup (handleBusEvent cs e now).pendingBookings S =
        alookup cs.pendingBookings S ∧
      alookup (handleBusEvent cs e now).optimisticUpdates S =
        alookup cs.optimisticUpdates S) := by
  constructor
  · show onLockAcquired cs S u now = cs
    unfold onLockAcquired
    by_cases hcu : cs.currentUser = some u
    · rw [if_pos hcu]
    · rw [if_neg hcu]
      simp [hs, hos]
  · intro e he
    cases e with
    | lock_acquired j v =>
        have hj : S ≠ j := fun hh =>
          he (by simp [eventSlotId, hh])
        have h := onLockAcquired_frame cs j v now S hj
        exact ⟨h.1, by rw [show (handleBusEvent cs (.lock_acquired j v) now) =
          onLockAcquired cs j v now from rfl, h.2.1], by rw [show
          (handleBusEvent cs (.lock_acquired j v) now) =
          onLockAcquired cs j v now from rfl, h.2.2]⟩
    | lock_released j v =>
        have hj : S ≠ j := fun hh => he (by simp [eventSlotId, hh])
        have h := onLockReleased_frame cs j S hj
        exact ⟨h.1, by rw [show (handleBusEvent cs (.lock_released j v) now) =
          onLockReleased cs j from rfl, h.2.1], by rw [show
          (handleBusEvent cs (.lock_released j v) now) =
          onLockReleased cs j from rfl, h.2.2]⟩
    | booking_confirmed j v sl =>
        have hj : S ≠ j := fun hh => he (by simp [eventSlotId, hh])
        have h := onBookingConfirmed_frame cs j v sl S hj
        exact ⟨h.1, by rw [show
          (handleBusEvent cs (.booking_confirmed j v sl) now) =
          onBookingConfirmed cs j v sl from rfl, h.2.1], h.2.2⟩
    | locks_cleaned => exact ⟨rfl, rfl, rfl⟩

/-- Witness for C7 (amended) on the concrete in-flight store. -/
theorem peer_broadcast_frame_witness :
    handleBusEvent pendingStore (.lock_acquired "slot-1" "u3") 300 =
      pendingStore ∧
    alookup (handleBusEvent pendingStore
        (.booking_confirmed "slot-2" "u2" peerBookedSlot) 300).slots "slot-1" =
      alookup pendingStore.slots "slot-1" ∧
    alookup (handleBusEvent pendingStore
        (.booking_confirmed "slot-2" "u2" peerBookedSlot) 300).pendingBookings
        "slot-1" =
      alookup pendingStore.pendingBookings "slot-1" ∧
    alookup (handleBusEvent pendingStore
        (.booking_confirmed "slot-2" "u2" peerBookedSlot) 300).optimisticUpdates
        "slot-1" =
      alookup pendingStore.optimisticUpdates "slot-1" :=
  ⟨(peer_broadcast_frame pendingStore "slot-1" "u3" 300
      ⟨"slot-1", 100, .pending⟩ specSlot (by decide) rfl (by decide)
      (by decide)).1,
   (peer_broadcast_frame pendingStore "slot-1" "u3" 300
      ⟨"slot-1", 100, .pending⟩ specSlot (by decide) rfl (by decide)
      (by decide)).2 (.booking_confirmed "slot-2" "u2" peerBookedSlot)
      (by decide)⟩

/-! ## C1: exactly one winner among serialized booking attempts -/

/-- C1 counterexample: two booking requests from distinct users on an
`Available` slot, serialized with the arbiter's random third-party
conflict injection firing on the first request: the injected user `user-42`
wins the slot and *zero* of the N = 2 requests receive `success = true`,
refuting "exactly one request receives an outcome with success=true". -/
theorem one_winner_counterexample :
    ((runBookings apiState0
        [(⟨"slot-1", "u1", 0, "c1"⟩, 10, some "user-42"),
         (⟨"slot-1", "u2", 0, "c2"⟩, 20, none)]).1.countP
      fun r => r.success) = 0 := by
  decide

theorem bookSlot_booked_state (st : ApiState) (req : BookingRequest)
    (now : Nat) (preempt : Option String) (slot : TimeSlot)
    (h : alookup st.slots req.slotId = some slot)
    (hb : slot.status = SlotStatus.booked) :
    bookSlot st req now preempt =
      ({ success := false,
         error := some ⟨.SLOT_ALREADY_BOOKED, "该时间段已被预定"⟩,
         conflict := some ⟨slot.id, slot.bookedBy, slot.bookedAt⟩ }, st) := by
  simp [bookSlot, h, hb]

theorem runBookings_booked (st : ApiState) (sid : String) (slot : TimeSlot)
    (reqs : List (BookingRequest × Nat × Option String))
    (h : alookup st.slots sid = some slot)
    (hb : slot.status = SlotStatus.booked)
    (hall : ∀ r ∈ reqs, (r : BookingRequest × Nat × Option String).1.slotId = sid) :
    runBookings st reqs =
      (reqs.map fun _ =>
        ({ success := false,
           error := some ⟨.SLOT_ALREADY_BOOKED, "该时间段已被预定"⟩,
           conflict := some ⟨slot.id, slot.bookedBy, slot.bookedAt⟩ } :
          BookingResponse), st) := by
  induction reqs with
  | nil => rfl
  | cons r rest ih =>
      obtain ⟨req, now, preempt⟩ := r
      have hsid : req.slotId = sid := hall _ (List.mem_cons_self _ _)
      have h' : alookup st.slots req.slotId = some slot := by rw [hsid]; exact h
      have hstep := bookSlot_booked_state st req now preempt slot h' hb
      simp only [runBookings, hstep, List.map_cons]
      rw [ih fun r hr => hall r (List.mem_cons_of_mem _ hr)]

theorem bookSlot_available_success (st : ApiState) (req : BookingRequest)
    (now : Nat) (slot : TimeSlot)
    (h : alookup st.slots req.slotId = some slot)
    (hav : slot.status = SlotStatus.available) :
    bookSlot st req now none =
      ({ success := true,
         slot := some { slot with
           status := SlotStatus.booked, bookedBy := some req.userId,
           bookedAt := some now, lockedBy := none, lockedAt := none } },
       { st with
         slots := aset st.slots req.slotId { slot with
           status := SlotStatus.booked, bookedBy := some req.userId,
           bookedAt := some now, lockedBy := none, lockedAt := none }
         bookingConfirmations := aset st.bookingConfirmations req.slotId
           ⟨req.userId, now⟩ }) := by
  simp [bookSlot, h, hav]

/-- C1 (amended): for a slot in `Available` status and any serialization of
N ≥ 2 booking requests on it from distinct identities in which the random
third-party conflict injection does not fire on the first-serialized request,
exactly one request (the first) receives `success = true`; every other
request receives a failure whose error is `AlreadyBooked` or
`ConflictDetected` and whose conflict descriptor names the identity that
actually won the slot (the first requester, who holds the slot in the final
state). -/
theorem one_winner (st : ApiState) (sid : String) (slot : TimeSlot)
    (r0 : BookingRequest) (now0 : Nat)
    (rest : List (BookingRequest × Nat × Option String))
    (hslot : alookup st.slots sid = some slot)
    (hav : slot.status = SlotStatus.available)
    (h0 : r0.slotId = sid)
    (hall : ∀ r ∈ rest,
      (r : BookingRequest × Nat × Option String).1.slotId = sid) :
    (((runBookings st ((r0, now0, none) :: rest)).1.countP
        fun r => r.success) = 1) ∧
    (∃ s, alookup (runBookings st ((r0, now0, none) :: rest)).2.slots sid =
        some s ∧
      s.status = SlotStatus.booked ∧ s.bookedBy = some r0.userId) ∧
    (∀ resp ∈ (runBookings st ((r0, now0, none) :: rest)).1,
      resp.success = false →
      (∃ e, resp.error = some e ∧
        (e.code = ApiErrorCode.SLOT_ALREADY_BOOKED ∨
         e.code = ApiErrorCode.CONFLICT_DETECTED)) ∧
      (∃ c, resp.conflict = some c ∧ c.bookedBy = some r0.userId)) := by
  have h0' : alookup st.slots r0.slotId = some slot := by rw [h0]; exact hslot
  have hstep := bookSlot_available_success st r0 now0 slot h0' hav
  set bookedSlot : TimeSlot := { slot with
    status := SlotStatus.booked, bookedBy := some r0.userId,
    bookedAt := some now0, lockedBy := none, lockedAt := none } with hbdef
  set st1 : ApiState := { st with
    slots := aset st.slots r0.slotId bookedSlot
    bookingConfirmations := aset st.bookingConfirmations r0.slotId
      ⟨r0.userId, now0⟩ } with hst1
  have hlk1 : alookup st1.slots sid = some bookedSlot := by
    rw [hst1]
    show alookup (aset st.slots r0.slotId bookedSlot) sid = some bookedSlot
    rw [h0]
    exact alookup_aset_self st.slots sid bookedSlot
  have hrest := runBookings_booked st1 sid bookedSlot rest hlk1 rfl hall
  have hrun : runBookings st ((r0, now0, none) :: rest) =
      ({ success := true, slot := some bookedSlot } ::
        (runBookings st1 rest).1, (runBookings st1 rest).2) := by
    simp only [runBookings, hstep]
  rw [hrun, hrest]
  refine ⟨?_, ?_, ?_⟩
  · simp only [List.countP_cons]
    rw [List.countP_eq_zero.2 ?_]
    · simp
    · intro a ha
      rcases List.mem_map.1 ha with ⟨r, hr, hae⟩
      rw [← hae]
      simp
  · exact ⟨bookedSlot, hlk1, rfl, rfl⟩
  · intro resp hresp hfail
    rcases List.mem_cons.1 hresp with h1 | h2
    · rw [h1] at hfail
      simp at hfail
    · rcases List.mem_map.1 h2 with ⟨r, hr, hae⟩
      rw [← hae]
      exact ⟨⟨_, rfl, Or.inl rfl⟩, ⟨_, rfl, rfl⟩⟩

/-- Witness for C1 (amended): two distinct users contending on the
concrete catalog slot. -/
theorem one_winner_witness :
    ((runBookings apiState0
        [(⟨"slot-1", "u1", 0, "c1"⟩, 10, none),
         (⟨"slot-1", "u2", 5, "c2"⟩, 20, none)]).1.countP
      fun r => r.success) = 1 :=
  (one_winner apiState0 "slot-1" preSlot ⟨"slot-1", "u1", 0, "c1"⟩ 10
    [(⟨"slot-1", "u2", 5, "c2"⟩, 20, none)] (by decide) rfl rfl
    (by decide)).1

/-! ## C9: the slot invariant across registry operations -/

theorem SlotStrong.toInv (s : TimeSlot) (h : SlotStrong s) : SlotInv s := by
  unfold SlotStrong at h
  cases hs : s.status <;> rw [hs] at h
  · exact ⟨Or.inl h.1, by simp [h.2.2.2, hs], by simp [h.2.1, hs]⟩
  · exact ⟨Or.inr h.2.2.1, by simp [h.2.2.2, hs], by simp [h.2.1, hs]⟩
  · exact ⟨Or.inl h.1, by simp [h.2.2.2, hs], by simp [h.2.1, hs]⟩
  · exact absurd h id

theorem allStrong_aset (l : List (String × TimeSlot)) (k : String)
    (v : TimeSlot) (hl : ∀ p ∈ l, SlotStrong p.2) (hv : SlotStrong v) :
    ∀ p ∈ aset l k v, SlotStrong p.2 := by
  intro p hp
  rcases mem_aset l k v p hp with h | h
  · exact hl p h
  · rw [h]; exact hv

theorem bookSlot_preserves (st : ApiState) (req : BookingRequest) (now : Nat)
    (preempt : Option String) (h : StateStrong st) :
    StateStrong (bookSlot st req now preempt).2 := by
  unfold bookSlot
  cases hsl : alookup st.slots req.slotId with
  | none => exact h
  | some slot =>
      dsimp only
      by_cases hb : slot.status = SlotStatus.booked
      · rw [if_pos hb]
        exact h
      · rw [if_neg hb]
        by_cases hl : slot.status = SlotStatus.locked ∧
            slot.lockedBy ≠ some req.userId
        · rw [if_pos hl]
          exact h
        · rw [if_neg hl]
          cases preempt with
          | some otherUserId =>
              exact allStrong_aset st.slots req.slotId _ h (by simp [SlotStrong])
          | none =>
              exact allStrong_aset st.slots req.slotId _ h (by simp [SlotStrong])

theorem cancelBooking_preserves (st : ApiState) (slotId userId : String)
    (h : StateStrong st) : StateStrong (cancelBooking st slotId userId).2 := by
  unfold cancelBooking
  cases hsl : alookup st.slots slotId with
  | none => exact h
  | some slot =>
      dsimp only
      by_cases h1 : slot.bookedBy ≠ some userId
      · rw [if_pos h1]; exact h
      · rw [if_neg h1]
        by_cases h2 : slot.status ≠ SlotStatus.booked
        · rw [if_pos h2]; exact h
        · rw [if_neg h2]
          have hstrong := h _ (alookup_mem st.slots slotId slot hsl)
          have hbk : slot.status = SlotStatus.booked := not_not.1 h2
          simp only [SlotStrong, hbk] at hstrong
          exact allStrong_aset st.slots slotId _ h
            (by simp [SlotStrong, hstrong.1, hstrong.2.1])

theorem lockSlot_preserves (st : ApiState) (slotId userId : String) (now : Nat)
    (h : StateStrong st) : StateStrong (lockSlot st slotId userId now).2 := by
  unfold lockSlot
  cases hsl : alookup st.slots slotId with
  | none => exact h
  | some slot =>
      dsimp only
      by_cases h1 : slot.status ≠ SlotStatus.available
      · rw [if_pos h1]; exact h
      · rw [if_neg h1]
        have hstrong := h _ (alookup_mem st.slots slotId slot hsl)
        have hav : slot.status = SlotStatus.available := not_not.1 h1
        simp only [SlotStrong, hav] at hstrong
        have hcommit : ∀ p ∈ aset st.slots slotId { slot with
            status := SlotStatus.locked, lockedBy := some userId,
            lockedAt := some now, lockedReason := some .booking_pending },
            SlotStrong p.2 :=
          allStrong_aset st.slots slotId _ h
            (by simp [SlotStrong, hstrong.2.2.1, hstrong.2.2.2])
        cases hlk : alookup st.bookingLocks slotId with
        | some existingLock =>
            dsimp only
            by_cases h2 : existingLock.userId ≠ userId
            · rw [if_pos h2]; exact h
            · rw [if_neg h2]; exact hcommit
        | none => exact hcommit

theorem unlockSlot_preserves (st : ApiState) (slotId userId : String)
    (h : StateStrong st) : StateStrong (unlockSlot st slotId userId).2 := by
  unfold unlockSlot
  cases hsl : alookup st.slots slotId with
  | none =>
      cases hlk : alookup st.bookingLocks slotId <;> exact h
  | some slot =>
      cases hlk : alookup st.bookingLocks slotId with
      | none => exact h
      | some lock =>
          dsimp only
          by_cases h1 : lock.userId ≠ userId
          · rw [if_pos h1]; exact h
          · rw [if_neg h1]
            by_cases h2 : slot.status = SlotStatus.locked ∧
                isFalsy slot.bookedBy
            · rw [if_pos h2]
              have hstrong := h _ (alookup_mem st.slots slotId slot hsl)
              simp only [SlotStrong, h2.1] at hstrong
              exact allStrong_aset st.slots slotId _ h
                (by simp [SlotStrong, hstrong.2.2.1, hstrong.2.2.2])
            · rw [if_neg h2]; exact h

theorem evictLock_preserves (now : Nat) (acc : ApiState)
    (e : String × ApiLockRec) (h : StateStrong acc) :
    StateStrong (evictLock now acc e) := by
  unfold evictLock
  by_cases hx : now - e.2.lockedAt > 30000
  · rw [if_pos hx]
    cases hsl : alookup acc.slots e.1 with
    | none => exact h
    | some slot =>
        dsimp only
        by_cases hc : slot.status = SlotStatus.locked ∧ isFalsy slot.bookedBy
        · rw [if_pos hc]
          have hstrong := h _ (alookup_mem acc.slots e.1 slot hsl)
          simp only [SlotStrong, hc.1] at hstrong
          exact allStrong_aset acc.slots e.1 _ h
            (by simp [SlotStrong, hstrong.2.2.1, hstrong.2.2.2])
        · rw [if_neg hc]; exact h
  · rw [if_neg hx]; exact h

theorem cleanupExpiredLocks_preserves (st : ApiState) (now : Nat)
    (h : StateStrong st) : StateStrong (cleanupExpiredLocks st now) := by
  unfold cleanupExpiredLocks
  generalize st.bookingLocks = L
  induction L generalizing st with
  | nil => exact h
  | cons e L ih =>
      rw [List.foldl_cons]
      exact ih _ (evictLock_preserves now st e h)

theorem applyOp_preserves (st : ApiState) (op : ApiOp) (h : StateStrong st) :
    StateStrong (applyOp st op) := by
  cases op with
  | book request now preempt => exact bookSlot_preserves st request now preempt h
  | cancel slotId userId => exact cancelBooking_preserves st slotId userId h
  | lock slotId userId now => exact lockSlot_preserves st slotId userId now h
  | unlock slotId userId => exact unlockSlot_preserves st slotId userId h
  | cleanup now => exact cleanupExpiredLocks_preserves st now h
  | listSlots resourceId now => exact cleanupExpiredLocks_preserves st now h

theorem runOps_strong (st : ApiState) (ops : List ApiOp) (h : StateStrong st) :
    StateStrong (runOps st ops) := by
  induction ops generalizing st with
  | nil => exact h
  | cons op ops ih =>
      rw [runOps, List.foldl_cons]
      exact ih _ (applyOp_preserves st op h)

theorem initializeMockData_strong (base : Nat) :
    StateStrong (initializeMockData base) := by
  intro p hp
  simp only [initializeMockData] at hp
  rcases List.mem_map.1 hp with ⟨i, hi, he⟩
  rw [← he]
  simp [SlotStrong]

/-- C9: every slot of every state reachable from the initial catalog through
any serialized sequence of registry operations — `bookSlot`, `cancelBooking`,
`lockSlot`, `unlockSlot`, expired-lock cleanup (also as triggered by
`getAvailableSlots`) — satisfies the slot invariant: at most one of
`lockedBy`/`bookedBy` is set, `bookedAt` is set iff status = Booked, and
`lockedAt` is set iff status = Locked. -/
theorem registry_ops_preserve_slot_invariant (base : Nat) (ops : List ApiOp)
    (p : String × TimeSlot)
    (hp : p ∈ (runOps (initializeMockData base) ops).slots) :
    SlotInv p.2 :=
  SlotStrong.toInv p.2
    (runOps_strong (initializeMockData base) ops
      (initializeMockData_strong base) p hp)

/-- Witness for C9: the invariant on a catalog slot after a concrete booking
operation. -/
theorem registry_ops_preserve_slot_invariant_witness :
    SlotInv { id := "slot-1", startTime := 0, endTime := 1800000,
              status := SlotStatus.booked, bookedBy := some "u1",
              bookedAt := some 10, price := some 50,
              resourceId := some "room-001" : TimeSlot } :=
  registry_ops_preserve_slot_invariant 0 [.book ⟨"slot-1", "u1", 0, "c1"⟩ 10 none]
    ("slot-1", { id := "slot-1", startTime := 0, endTime := 1800000,
                 status := SlotStatus.booked, bookedBy := some "u1",
                 bookedAt := some 10, price := some 50,
                 resourceId := some "room-001" })
    (by decide)

end Booking
